import Mathlib

/-!
Verification of the `BuyButton` component
(`src/components/SQLCourse/BuyButton.tsx`).

The component is embedded shallowly: URL query parameters become an
association list, the component's observable actions (analytics events,
navigations, toasts, the checkout-session request, console logging) become
an explicit `Effect` list, and each handler of the source becomes a pure
state transformer `PageState → PageState × List Effect`.
-/

namespace BuyButton

/-- Course slug constant from the source: `SQL_COURSE_SLUG = 'sql'`. -/
def SQL_COURSE_SLUG : String := "sql"

/-- Modelled from the spec: name of the purchase-intent URL parameter.
`COURSE_PURCHASE_PARAM` is imported from `lib/jwt`, which is not among the
sources; the spec only requires a fixed parameter name ("purchase-intent
(analogous)"). -/
def COURSE_PURCHASE_PARAM : String := "purchase-intent"

/-- Modelled from the spec: name of the purchase-outcome URL parameter.
`COURSE_PURCHASE_SUCCESS_PARAM` is imported from `lib/jwt`, which is not
among the sources; the spec only requires a fixed parameter name
("purchase-outcome (analogous)"), distinct from the intent parameter. -/
def COURSE_PURCHASE_SUCCESS_PARAM : String := "purchase-outcome"

/-- Modelled from the spec: the build-time configured base URL of the
course-consumption application (`import.meta.env.PUBLIC_COURSE_APP_URL`);
only used as an opaque string value. -/
def PUBLIC_COURSE_APP_URL : String := "https://course-app.example.com"

/-- Modelled from the spec: URL query parameters of the current address as a
name-to-value mapping (`getUrlParams` from `lib/browser`, not among the
sources), represented as an association list. -/
abbrev UrlParams := List (String × String)

/-- Look a parameter up by name (the object access `urlParams[name]`,
`undefined` when absent). -/
def getParam (ps : UrlParams) (k : String) : Option String :=
  (ps.find? (fun p => p.1 == k)).map (fun p => p.2)

/-- Modelled from the spec: delete a named parameter from the current
address without a full navigation (`deleteUrlParam` from `lib/browser`,
not among the sources). -/
def deleteUrlParam (ps : UrlParams) (k : String) : UrlParams :=
  ps.filter (fun p => p.1 != k)

/-- JavaScript truthiness test of an optional string: `undefined` and the
empty string are falsy (the source's `if (!param) return;` and
`error?.message || fallback`). -/
def jsFalsy : Option String → Bool
  | none => true
  | some s => s.isEmpty

/-- Observable actions the component performs on its collaborators.
`fireEvent`'s `callbackNavTo` records the URL the event's completion
callback navigates to, when the source installs such a callback. -/
inductive Effect where
  | fireEvent (action category label : String) (callbackNavTo : Option String)
  | navigate (url : String)
  | scheduleNavigate (delayMs : Nat) (url : String)
  | checkoutRequest (courseId successPath cancelPath : String)
  | toastLoading (message : String)
  | toastError (message : String)
  | consoleError
  deriving DecidableEq, Repr

/-- The component-instance state the handlers read and write: the page's
URL parameters, the login-popup flag (`isLoginPopupOpen` useState), and
the mutation's pending flag (`isCreatingCheckoutSession`). -/
structure PageState where
  urlParams : UrlParams
  isLoginPopupOpen : Bool
  isCreatingCheckoutSession : Bool
  deriving DecidableEq, Repr

/-- Path of the course page used for both checkout redirect targets. -/
def coursePagePath : String := "/courses/" ++ SQL_COURSE_SLUG

/-- `initPurchase` from the source: a silent no-op when `isLoggedIn()` is
false; otherwise call `createCheckoutSession` with success and cancel
redirect paths pointing back to the course page, differing only by the
outcome parameter's value. The mutation's `onMutate` shows the loading
toast and react-query marks the mutation pending. -/
def initPurchase (loggedIn : Bool) (s : PageState) : PageState × List Effect :=
  if !loggedIn then (s, [])
  else
    ({ s with isCreatingCheckoutSession := true },
     [Effect.toastLoading "Creating checkout session...",
      Effect.checkoutRequest SQL_COURSE_SLUG
        (coursePagePath ++ "?" ++ COURSE_PURCHASE_SUCCESS_PARAM ++ "=1")
        (coursePagePath ++ "?" ++ COURSE_PURCHASE_SUCCESS_PARAM ++ "=0")])

/-- The first mount effect of the source: read the URL parameters; when the
purchase-intent parameter equals `"1"`, delete it from the URL and then run
`initPurchase`. -/
def purchaseIntentEffect (loggedIn : Bool) (s : PageState) :
    PageState × List Effect :=
  if getParam s.urlParams COURSE_PURCHASE_PARAM = some "1" then
    initPurchase loggedIn
      { s with urlParams := deleteUrlParam s.urlParams COURSE_PURCHASE_PARAM }
  else (s, [])

/-- The `purchase_complete` analytics event of the source. -/
def purchaseCompleteEvent : Effect :=
  Effect.fireEvent (SQL_COURSE_SLUG ++ "_purchase_complete") "course"
    (SQL_COURSE_SLUG ++ " Course Purchase Completed") none

/-- The `purchase_canceled` analytics event of the source. -/
def purchaseCanceledEvent : Effect :=
  Effect.fireEvent (SQL_COURSE_SLUG ++ "_purchase_canceled") "course"
    (SQL_COURSE_SLUG ++ " Course Purchase Canceled") none

/-- The second mount effect of the source: read the purchase-outcome
parameter; return early when it is falsy (`if (!param) return;`); emit
the complete event when it equals `"1"` and the canceled event otherwise;
finally delete the parameter from the URL. -/
def purchaseOutcomeEffect (s : PageState) : PageState × List Effect :=
  let param := getParam s.urlParams COURSE_PURCHASE_SUCCESS_PARAM
  if jsFalsy param then (s, [])
  else
    ({ s with
        urlParams := deleteUrlParam s.urlParams COURSE_PURCHASE_SUCCESS_PARAM },
     [if param = some "1" then purchaseCompleteEvent else purchaseCanceledEvent])

/-- The two mount effects in declaration order: the purchase-intent effect,
then the purchase-outcome effect on the resulting state. -/
def mountEffects (loggedIn : Bool) (s : PageState) : PageState × List Effect :=
  let r1 := purchaseIntentEffect loggedIn s
  let r2 := purchaseOutcomeEffect r1.1
  (r2.1, r1.2 ++ r2.2)

/-- `onSuccess` of the checkout-session mutation: when `window.gtag` is
absent, navigate to `checkoutUrl` at once; otherwise emit the
`begin_checkout` event whose completion callback navigates to
`checkoutUrl`, and schedule a fallback navigation to the same URL after
3000ms. React-query marks the mutation settled. -/
def onCheckoutSuccess (hasGtag : Bool) (checkoutUrl : String) (s : PageState) :
    PageState × List Effect :=
  let s1 := { s with isCreatingCheckoutSession := false }
  if !hasGtag then (s1, [Effect.navigate checkoutUrl])
  else
    (s1,
     [Effect.fireEvent (SQL_COURSE_SLUG ++ "_begin_checkout") "course"
        (SQL_COURSE_SLUG ++ " Course Checkout Started") (some checkoutUrl),
      Effect.scheduleNavigate 3000 checkoutUrl])

/-- `onError` of the checkout-session mutation: log the error to the
console and show an error toast with the server message, or the generic
message when that is falsy (`error?.message || '...'`). React-query marks
the mutation settled, re-enabling the pending flag's consumers. -/
def onCheckoutError (message : Option String) (s : PageState) :
    PageState × List Effect :=
  ({ s with isCreatingCheckoutSession := false },
   [Effect.consoleError,
    Effect.toastError
      (if jsFalsy message then "Failed to create checkout session"
       else message.getD "")])

/-- `onBuyClick` from the source: when not logged in, open the login popup
and stop; when enrolled (`!!courseProgress?.enrolledAt`, with
`enrolledAt` modelled per the spec's data model as `timestamp|absent`),
navigate to the course-consumption application; otherwise run
`initPurchase`. -/
def onBuyClick (loggedIn : Bool) (enrolledAt : Option Nat) (s : PageState) :
    PageState × List Effect :=
  if !loggedIn then ({ s with isLoginPopupOpen := true }, [])
  else if enrolledAt.isSome then
    (s, [Effect.navigate (PUBLIC_COURSE_APP_URL ++ "/" ++ SQL_COURSE_SLUG)])
  else initPurchase loggedIn s

/-- The rendered variants of the component. -/
inductive Variant where
  | main
  | floating
  | topNav
  deriving DecidableEq, Repr

/-- The `disabled` attribute placed on the buy button: every variant passes
`disabled={isLoadingPricing}`. -/
def buttonDisabledAttr (_v : Variant) (isLoadingPricing : Bool) : Bool :=
  isLoadingPricing

/-- Whether the variant's class list contains `pointer-events-none`: the
main and floating variants add it under
`isLoadingPricing || isCreatingCheckoutSession`; the top-nav variant's
class string never contains it. -/
def buttonPointerBlocked (v : Variant)
    (isLoadingPricing isCreating : Bool) : Bool :=
  match v with
  | Variant.main => isLoadingPricing || isCreating
  | Variant.floating => isLoadingPricing || isCreating
  | Variant.topNav => false

/-- The buy control rejects interaction exactly when the `disabled`
attribute is set or the class list blocks pointer events. -/
def controlDisabled (v : Variant) (isLoadingPricing isCreating : Bool) : Bool :=
  buttonDisabledAttr v isLoadingPricing ||
    buttonPointerBlocked v isLoadingPricing isCreating

/-! Helper lemmas about the URL-parameter store and `initPurchase`. -/

/-- Looking a parameter up in a cons cell. -/
theorem getParam_cons (p : String × String) (t : UrlParams) (k : String) :
    getParam (p :: t) k = if p.1 = k then some p.2 else getParam t k := by
  by_cases h : p.1 = k <;> simp [getParam, List.find?_cons, h]

/-- Deleting a parameter from a cons cell. -/
theorem deleteUrlParam_cons (p : String × String) (t : UrlParams) (k : String) :
    deleteUrlParam (p :: t) k =
      if p.1 = k then deleteUrlParam t k else p :: deleteUrlParam t k := by
  by_cases h : p.1 = k <;> simp [deleteUrlParam, List.filter_cons, h]

/-- After deleting a parameter, looking it up yields nothing. -/
theorem getParam_deleteUrlParam (ps : UrlParams) (k : String) :
    getParam (deleteUrlParam ps k) k = none := by
  induction ps with
  | nil => rfl
  | cons p t ih =>
    rw [deleteUrlParam_cons]
    by_cases h : p.1 = k
    · simpa [h] using ih
    · rw [if_neg h, getParam_cons, if_neg h]
      exact ih

/-- `initPurchase` never changes the URL parameters. -/
theorem initPurchase_urlParams (loggedIn : Bool) (s : PageState) :
    (initPurchase loggedIn s).1.urlParams = s.urlParams := by
  cases loggedIn <;> simp [initPurchase]

/-! The claims. -/

/-- Claim C1: on every mount where the purchase-intent parameter has value
"1", the effect strips the parameter from the URL (one delete, after which
the parameter is absent) and then behaves exactly as the purchase-initiation
procedure on the stripped state, for either outcome of the identity check. -/
theorem intent_param_stripped_then_initiation (loggedIn : Bool) (s : PageState)
    (h : getParam s.urlParams COURSE_PURCHASE_PARAM = some "1") :
    purchaseIntentEffect loggedIn s
      = initPurchase loggedIn
          { s with urlParams := deleteUrlParam s.urlParams COURSE_PURCHASE_PARAM }
    ∧ (purchaseIntentEffect loggedIn s).1.urlParams
        = deleteUrlParam s.urlParams COURSE_PURCHASE_PARAM
    ∧ getParam (purchaseIntentEffect loggedIn s).1.urlParams COURSE_PURCHASE_PARAM
        = none := by
  have he : purchaseIntentEffect loggedIn s
      = initPurchase loggedIn
          { s with
              urlParams := deleteUrlParam s.urlParams COURSE_PURCHASE_PARAM } := by
    simp [purchaseIntentEffect, h]
  refine ⟨he, ?_, ?_⟩
  · rw [he, initPurchase_urlParams]
  · rw [he, initPurchase_urlParams]
    exact getParam_deleteUrlParam s.urlParams COURSE_PURCHASE_PARAM

/-- Witness for C1: a mount whose URL carries the intent parameter with
value "1", checked with the identity check reporting not authenticated. -/
theorem intent_param_stripped_then_initiation_witness :
    getParam [(COURSE_PURCHASE_PARAM, "1")] COURSE_PURCHASE_PARAM = some "1"
    ∧ getParam (purchaseIntentEffect false
        (⟨[(COURSE_PURCHASE_PARAM, "1")], false, false⟩ : PageState)).1.urlParams
        COURSE_PURCHASE_PARAM = none :=
  ⟨by decide,
   (intent_param_stripped_then_initiation false
     (⟨[(COURSE_PURCHASE_PARAM, "1")], false, false⟩ : PageState) (by decide)).2.2⟩

/-- Counterexample to C2 as stated: at a mount where the purchase-outcome
parameter is present but carries the empty value, the component fires zero
analytics events and does not remove the parameter from the URL. -/
theorem outcome_param_present_empty_counterexample :
    (getParam [(COURSE_PURCHASE_SUCCESS_PARAM, "")]
        COURSE_PURCHASE_SUCCESS_PARAM).isSome = true
    ∧ purchaseOutcomeEffect
        (⟨[(COURSE_PURCHASE_SUCCESS_PARAM, "")], false, false⟩ : PageState)
      = ((⟨[(COURSE_PURCHASE_SUCCESS_PARAM, "")], false, false⟩ : PageState),
         []) := by
  exact ⟨by decide, by decide⟩

/-- Claim C2 (amended): on every mount where the purchase-outcome parameter
is present with a non-empty value, the effect emits exactly one analytics
event — the complete event when the value is "1", the canceled event for
any other non-empty value, and the two events are distinct — and removes
the parameter afterwards; when the parameter is absent or present with the
empty value, it emits no event and leaves the state unchanged. -/
theorem outcome_event_exactly_once (s : PageState) :
    (∀ v, getParam s.urlParams COURSE_PURCHASE_SUCCESS_PARAM = some v →
      v ≠ "" →
      (purchaseOutcomeEffect s).2
          = [if v = "1" then purchaseCompleteEvent else purchaseCanceledEvent]
        ∧ purchaseCompleteEvent ≠ purchaseCanceledEvent
        ∧ (purchaseOutcomeEffect s).1.urlParams
            = deleteUrlParam s.urlParams COURSE_PURCHASE_SUCCESS_PARAM)
    ∧ (jsFalsy (getParam s.urlParams COURSE_PURCHASE_SUCCESS_PARAM) = true →
        purchaseOutcomeEffect s = (s, [])) := by
  constructor
  · intro v hv hne
    have hemp : v.isEmpty = false := by
      cases hb : v.isEmpty
      · rfl
      · exact absurd ((String.isEmpty_iff v).mp hb) hne
    have hf : jsFalsy (some v) = false := hemp
    refine ⟨?_, by decide, ?_⟩ <;> simp [purchaseOutcomeEffect, hf, hv]
  · intro hf
    simp [purchaseOutcomeEffect, hf]

/-- Witness for C2 (amended): a mount whose URL carries the outcome
parameter with value "1". -/
theorem outcome_event_exactly_once_witness :
    (purchaseOutcomeEffect
        (⟨[(COURSE_PURCHASE_SUCCESS_PARAM, "1")], false, false⟩ : PageState)).2
      = [if "1" = "1" then purchaseCompleteEvent else purchaseCanceledEvent]
    ∧ purchaseCompleteEvent ≠ purchaseCanceledEvent
    ∧ (purchaseOutcomeEffect
        (⟨[(COURSE_PURCHASE_SUCCESS_PARAM, "1")], false, false⟩ : PageState)).1.urlParams
      = deleteUrlParam [(COURSE_PURCHASE_SUCCESS_PARAM, "1")]
          COURSE_PURCHASE_SUCCESS_PARAM :=
  (outcome_event_exactly_once
    (⟨[(COURSE_PURCHASE_SUCCESS_PARAM, "1")], false, false⟩ : PageState)).1
    "1" (by decide) (by decide)

/-- Claim C3: on checkout-session success without the analytics capability,
the handler performs the navigation to `checkoutUrl` as its only effect;
with the capability, it emits the begin-checkout event whose completion
callback navigates to `checkoutUrl` and schedules a fallback navigation to
the same URL after 3000ms, with no direct navigation. -/
theorem checkout_success_redirect_paths (url : String) (s : PageState) :
    onCheckoutSuccess false url s
      = ({ s with isCreatingCheckoutSession := false }, [Effect.navigate url])
    ∧ onCheckoutSuccess true url s
      = ({ s with isCreatingCheckoutSession := false },
         [Effect.fireEvent (SQL_COURSE_SLUG ++ "_begin_checkout") "course"
            (SQL_COURSE_SLUG ++ " Course Checkout Started") (some url),
          Effect.scheduleNavigate 3000 url]) :=
  ⟨rfl, rfl⟩

/-- Counterexample to C4 as stated: in the top-nav variant, with pricing
loaded and a checkout-session command pending, the buy control is not
disabled. -/
theorem topnav_enabled_while_pending_counterexample :
    controlDisabled Variant.topNav false true = false := by
  decide

/-- Claim C4 (amended): while a checkout-session command is pending, the
main and floating variants block interaction with the buy control (so at
most one command can be started from them); the top-nav variant's control
is disabled only while pricing is loading and stays enabled while a
command is pending. -/
theorem control_disabled_while_pending (isLoadingPricing : Bool) :
    controlDisabled Variant.main isLoadingPricing true = true
    ∧ controlDisabled Variant.floating isLoadingPricing true = true
    ∧ controlDisabled Variant.topNav isLoadingPricing true = isLoadingPricing := by
  cases isLoadingPricing <;> exact ⟨rfl, rfl, rfl⟩

/-- Claim C5: on checkout-session failure, the handler logs the error and
shows an error toast with the server-provided message when one is present,
or the generic message when none is provided; its effects contain no
navigation and no new checkout request, and the pending flag is cleared so
the control is re-enabled. -/
theorem checkout_error_handling (s : PageState) (m : String) (hm : m ≠ "") :
    onCheckoutError (some m) s
      = ({ s with isCreatingCheckoutSession := false },
         [Effect.consoleError, Effect.toastError m])
    ∧ onCheckoutError none s
      = ({ s with isCreatingCheckoutSession := false },
         [Effect.consoleError,
          Effect.toastError "Failed to create checkout session"])
    ∧ (∀ url, Effect.navigate url ∉ (onCheckoutError (some m) s).2)
    ∧ (∀ c a b, Effect.checkoutRequest c a b ∉ (onCheckoutError (some m) s).2) := by
  have hemp : m.isEmpty = false := by
    cases hb : m.isEmpty
    · rfl
    · exact absurd ((String.isEmpty_iff m).mp hb) hm
  have hf : jsFalsy (some m) = false := hemp
  refine ⟨?_, by simp [onCheckoutError, jsFalsy], ?_, ?_⟩ <;>
    simp [onCheckoutError, hf]

/-- Witness for C5: the spec's scenario with server message
"card declined", fired while a checkout-session command is pending. -/
theorem checkout_error_handling_witness :
    onCheckoutError (some "card declined") (⟨[], false, true⟩ : PageState)
      = ((⟨[], false, false⟩ : PageState),
         [Effect.consoleError, Effect.toastError "card declined"]) :=
  (checkout_error_handling (⟨[], false, true⟩ : PageState) "card declined"
    (by decide)).1

/-- Claim C6: clicking the buy control while not authenticated opens the
login popup, issues no effect and leaves the URL parameters alone; while
authenticated and enrolled it navigates to the course-consumption URL with
no checkout command; while authenticated and not enrolled it behaves
exactly as the purchase-initiation procedure. -/
theorem buy_click_branches (enrolledAt : Option Nat) (t : Nat) (s : PageState) :
    onBuyClick false enrolledAt s = ({ s with isLoginPopupOpen := true }, [])
    ∧ onBuyClick true (some t) s
        = (s, [Effect.navigate (PUBLIC_COURSE_APP_URL ++ "/" ++ SQL_COURSE_SLUG)])
    ∧ onBuyClick true none s = initPurchase true s :=
  ⟨rfl, rfl, rfl⟩

/-- Claim C7: the purchase-initiation procedure is a silent no-op (same
state, no effect, so no popup and no command) when the identity check
reports not authenticated; when authenticated it marks the command pending
and issues the checkout request whose success and cancel redirect paths
point to the same course page and differ only in the outcome parameter's
value, "1" versus "0". -/
theorem init_purchase_branches (s : PageState) :
    initPurchase false s = (s, [])
    ∧ initPurchase true s
      = ({ s with isCreatingCheckoutSession := true },
         [Effect.toastLoading "Creating checkout session...",
          Effect.checkoutRequest SQL_COURSE_SLUG
            (coursePagePath ++ "?" ++ COURSE_PURCHASE_SUCCESS_PARAM ++ "=1")
            (coursePagePath ++ "?" ++ COURSE_PURCHASE_SUCCESS_PARAM ++ "=0")]) :=
  ⟨rfl, rfl⟩

/-- Claim C8: a mount on a state whose URL no longer carries the
purchase-intent and purchase-outcome parameters runs both mount effects as
no-ops: no effect fires and the state is unchanged. -/
theorem remount_after_strip_is_noop (loggedIn : Bool) (s : PageState)
    (h1 : getParam s.urlParams COURSE_PURCHASE_PARAM = none)
    (h2 : getParam s.urlParams COURSE_PURCHASE_SUCCESS_PARAM = none) :
    mountEffects loggedIn s = (s, []) := by
  have e1 : purchaseIntentEffect loggedIn s = (s, []) := by
    simp [purchaseIntentEffect, h1]
  have e2 : purchaseOutcomeEffect s = (s, []) := by
    simp [purchaseOutcomeEffect, h2, jsFalsy]
  simp [mountEffects, e1, e2]

/-- Witness for C8: the second mount on the state a first mount produced
from a URL that carried both parameters. -/
theorem remount_after_strip_is_noop_witness :
    mountEffects true
        (mountEffects true
          (⟨[(COURSE_PURCHASE_PARAM, "1"), (COURSE_PURCHASE_SUCCESS_PARAM, "0")],
            false, false⟩ : PageState)).1
      = ((mountEffects true
          (⟨[(COURSE_PURCHASE_PARAM, "1"), (COURSE_PURCHASE_SUCCESS_PARAM, "0")],
            false, false⟩ : PageState)).1, []) :=
  remount_after_strip_is_noop true
    (mountEffects true
      (⟨[(COURSE_PURCHASE_PARAM, "1"), (COURSE_PURCHASE_SUCCESS_PARAM, "0")],
        false, false⟩ : PageState)).1
    (by decide) (by decide)

/-- Claim C9: a mount where the purchase-outcome parameter is present with
the empty value emits no analytics event and does not delete the parameter:
the state is returned unchanged, exactly as for an absent parameter. -/
theorem outcome_param_empty_treated_as_absent (s : PageState)
    (h : getParam s.urlParams COURSE_PURCHASE_SUCCESS_PARAM = some "") :
    purchaseOutcomeEffect s = (s, []) := by
  have hf : jsFalsy (some "") = true := by decide
  simp [purchaseOutcomeEffect, h, hf]

/-- Witness for C9: a URL carrying the outcome parameter with empty value
next to an unrelated parameter. -/
theorem outcome_param_empty_treated_as_absent_witness :
    purchaseOutcomeEffect
        (⟨[("ref", "x"), (COURSE_PURCHASE_SUCCESS_PARAM, "")], false, false⟩
          : PageState)
      = ((⟨[("ref", "x"), (COURSE_PURCHASE_SUCCESS_PARAM, "")], false, false⟩
          : PageState), []) :=
  outcome_param_empty_treated_as_absent
    (⟨[("ref", "x"), (COURSE_PURCHASE_SUCCESS_PARAM, "")], false, false⟩
      : PageState) (by decide)

/-- Claim C10: a mount where the purchase-intent parameter carries any
value other than "1" initiates no purchase and leaves the state, the URL
parameters included, unchanged. -/
theorem intent_param_other_value_ignored (loggedIn : Bool) (s : PageState)
    (v : String) (hv : getParam s.urlParams COURSE_PURCHASE_PARAM = some v)
    (hne : v ≠ "1") :
    purchaseIntentEffect loggedIn s = (s, []) := by
  have hn : getParam s.urlParams COURSE_PURCHASE_PARAM ≠ some "1" := by
    rw [hv]
    simpa using hne
  simp [purchaseIntentEffect, hn]

/-- Witness for C10: the intent parameter carrying value "0" on a mount
with the identity check reporting authenticated. -/
theorem intent_param_other_value_ignored_witness :
    purchaseIntentEffect true
        (⟨[(COURSE_PURCHASE_PARAM, "0")], false, false⟩ : PageState)
      = ((⟨[(COURSE_PURCHASE_PARAM, "0")], false, false⟩ : PageState), []) :=
  intent_param_other_value_ignored true
    (⟨[(COURSE_PURCHASE_PARAM, "0")], false, false⟩ : PageState)
    "0" (by decide) (by decide)

end BuyButton
